import Mathlib

/-!
Shallow embedding of `src/tensor/linear-ops.cc` (kaldi tensor branch):
the operation-expansion and kernel-dispatch drivers `PlusEqOp::Expand` /
`PlusEqOp::ExpandCpu`, `AssignOp::Expand` and `AddProduct`.

Modelling notes, fixed once here:

* The source file is an in-progress edit whose braces do not balance as
  C++.  The first definition of `PlusEqOp::ExpandCpu` (lines 31-199)
  merges the CPU and CUDA expansion logic: its reference-mode early
  return (lines 33-40), its pattern reduction (44-59), a switch over the
  combined code for float/double on CPU (83-139), an `else` block
  commented "CPU, but not float or double" switching on the dtype
  (140-147), a final `ops->push_back(new_op); return;` for the CPU side
  (148-149), and an `else` block asserting `kCuda` that holds the CUDA
  dispatch guarded by `HAVE_CUDA` (150-197).  The dispatcher
  `PlusEqOp::Expand` (26-29) routes CPU operands to `ExpandCpu` and
  others to `ExpandCuda` (not present in the file); the CUDA dispatch
  this file contains is the `kCuda` else-branch, and we embed it as the
  accelerator body.  The second, truncated definition of `ExpandCpu`
  (202-221) performs only the normalization prologue and emits nothing;
  it is not embedded.

* `ReducePatterns` / `NormalizePatterns`, `ComputePatternCode`,
  `CombineCodes`, tensor construction, `SqueezeR` and `WithPattern` live
  in pattern-utils / the tensor container, outside this file.  The
  drivers here only consume their results, so the embedded drivers take
  the jointly reduced patterns of the two operands as inputs, each
  `Pattern` carries its stored `code` field (as `TensorImpl` does in
  `AddProduct`, which reads `a.pattern.code` directly), and the helper
  functions are modelled from the spec where marked.

* `CombineCodes` is modelled from the source's own documentation: the
  combined code "may be viewed as a hex number 0xAAABBB where AAA is the
  code of a_pattern and BBB is the code of b_pattern", and for the
  ternary driver "groups of 3 hex characters, 0xAAABBBCCC".

* C++ `switch` fall-through (a case without `break`) is embedded
  explicitly: the list of assignments made to `new_op` along the control
  path is written out, and the op pushed after the switch is the last
  assignment.  `KALDI_ERR` aborts; a result records the ops appended to
  the plan before the abort together with the error.

* The `float alpha, float beta` scaling arguments of `AddProduct` do not
  influence any control flow in the file and are omitted.
-/

namespace LinearOps

/-- Device kind of a tensor: CPU (`kCpuDevice`) or the accelerator
(`kCuda`). -/
inductive DeviceType where
  | cpu
  | cuda
  deriving DecidableEq

/-- A concrete device: its kind plus a device id, so that two distinct
devices of the same kind are distinguishable (cross-device checks compare
whole devices). -/
structure Device where
  deviceType : DeviceType
  deviceId : Nat
  deriving DecidableEq

/-- Element types occurring in the source: `kFloat`, `kDouble`,
`kInt32Dtype`, and all remaining dtypes collapsed into `other`. -/
inductive Dtype where
  | float
  | double
  | int32
  | other (n : Nat)
  deriving DecidableEq

/-- A memory-access pattern: `dims` indexed by raxis (raxis 0 = fastest
varying axis first), plus the stored pattern code (`TensorImpl`'s
`pattern.code`; `ComputePatternCode` itself is outside this file). -/
structure Pattern where
  dims : List Nat
  code : Nat
  deriving DecidableEq

/-- A tensor as the drivers see it: element type, device, pattern.
`Tensor` and `TensorImpl` expose the same three fields to this file. -/
structure Tensor where
  dtype : Dtype
  device : Device
  pattern : Pattern
  deriving DecidableEq

/-- Binary `CombineCodes`, from the source comment: the combined code is
`0xAAABBB` with `AAA` the code of `a` and `BBB` the code of `b`. -/
def combineCodes (a b : Nat) : Nat := a * 0x1000 + b

/-- Ternary `CombineCodes`, from the source comment on `AddProduct`: the
combined code is `0xAAABBBCCC` for tensors `a`, `b`, `c`. -/
def combineCodes3 (a b c : Nat) : Nat := (a * 0x1000 + b) * 0x1000 + c

/-- Modelled from the spec: `WithPattern` wraps a tensor with an
explicitly supplied reduced pattern ("wrap a tensor with an explicitly
supplied reduced Pattern", spec section 6); data, dtype and device are
unchanged. -/
def withPattern (t : Tensor) (p : Pattern) : Tensor := { t with pattern := p }

/-- Modelled from the spec: the low 12 bits of the pattern code of a
freshly allocated contiguous tensor, following the source's legend
(`X` dim>1 stride=1, `x` dim>1 stride!=1, `1` dim==1): the low byte is a
bitmap of the raxes with dim > 1. `ComputePatternCode` is outside this
file; this value is never inspected by any theorem below. -/
def freshCodeBitmap : List Nat → Nat
  | [] => 0
  | d :: rest => (if d > 1 then 1 else 0) + 2 * freshCodeBitmap rest

/-- Modelled from the spec: the hex digit of the pattern code recording
(1 + raxis) of the stride-1 axis of a fresh contiguous tensor, 0 when
every axis is trivial.  Matches the source's case values, e.g. `(X)` =
0x101, `(X,1)` = 0x202. -/
def freshCodeDigit (rdims : List Nat) : Nat :=
  match rdims.findIdx? (fun d => d > 1) with
  | some i => i + 1
  | none => 0

/-- Modelled from the spec: pattern code of a freshly allocated
contiguous tensor with raxis-indexed dims `rdims`. -/
def freshCode (rdims : List Nat) : Nat :=
  0x100 * freshCodeDigit rdims + freshCodeBitmap rdims

/-- Modelled from the spec: constructing a new tensor of the given shape
(outermost axis first, as in `Tensor temp({num_rows, 1}, ...)`), element
type and device ("construct a new tensor of given shape/type/device (for
temporaries)", spec section 6).  The raxis-indexed dims are the reversed
shape; the fresh tensor is contiguous. -/
def newTensor (shape : List Nat) (dtype : Dtype) (device : Device) : Tensor :=
  { dtype := dtype, device := device,
    pattern := { dims := shape.reverse, code := freshCode shape.reverse } }

/-- Modelled from the spec: `SqueezeR(t, raxis)` is a view of `t` with
the given raxis removed ("removing the current raxis 0 and having
current raxis 1 shift down"; "reshape is a free reinterpretation, not a
copy", spec section 4.5).  It is applied below only to the freshly
allocated contiguous temporary, for which the fresh-pattern code rule
applies. -/
def squeezeR (t : Tensor) (raxis : Nat) : Tensor :=
  { t with pattern := { dims := t.pattern.dims.eraseIdx raxis,
                        code := freshCode (t.pattern.dims.eraseIdx raxis) } }

/-- The tensor view the driver actually dispatches on: `Tensor a(a_);
if (a_pattern != a_.Impl().pattern) a = WithPattern(a, a_pattern);` —
the original tensor if reduction changed nothing, else the original
rewrapped with the reduced pattern. -/
def reducedView (t0 : Tensor) (p : Pattern) : Tensor :=
  if p ≠ t0.pattern then withPattern t0 p else t0

/-- Planned kernel invocations (`Op` subclasses) constructed in this
file.  Each constructor records the template dtype argument, the device
argument where the `SET_TO_TEMPLATED_OP_*` macro receives one, and the
operand tensors passed.  `stvectorPlusEqMatrix` mirrors the source's
macro call `SET_TO_TEMPLATED_OP_REAL(new_op, a.Dtype(),
StvectorPlusEqMatrix);`, which passes no operand tensors. -/
inductive Op where
  | plusEqRef (dtype : Dtype) (a b : Tensor)
  | scalarPlusEqScalarCpu (dtype : Dtype) (a b : Tensor)
  | stvectorPlusEqStvectorCpu (dtype : Dtype) (a b : Tensor)
  | scalarPlusEqStvectorCpu (dtype : Dtype) (a b : Tensor)
  | stvectorPlusEqScalarCpu (dtype : Dtype) (a b : Tensor)
  | colVectorEqMatrixCpu (dtype : Dtype) (a b : Tensor)
  | stvectorPlusEqMatrix (dtype : Dtype)
  | plusEqRefCpu (dtype : Dtype) (a b : Tensor)
  | stvectorPlusEqStvectorCuda (dtype : Dtype) (dev : DeviceType) (a b : Tensor)
  | scalarPlusEqStvectorCuda (dtype : Dtype) (dev : DeviceType) (a b : Tensor)
  | stvectorPlusEqScalarCuda (dtype : Dtype) (dev : DeviceType) (a b : Tensor)
  | colVectorEqMatrix (dtype : Dtype) (dev : DeviceType) (a b : Tensor)
  | scalarPlusEqStvector (dtype : Dtype) (dev : DeviceType) (a b : Tensor)
  | scalarPlusEqScalar (dtype : Dtype) (dev : DeviceType) (a b : Tensor)
  | stvectorPlusEqStvector (dtype : Dtype) (dev : DeviceType) (a b : Tensor)
  | stvectorPlusEqScalar (dtype : Dtype) (dev : DeviceType) (a b : Tensor)
  | assignRef (adtype bdtype : Dtype) (a b : Tensor)
  deriving DecidableEq

/-- A fatal planning-layer failure: `KALDI_ERR` with its message, or a
failed `KALDI_ASSERT` with the asserted condition. -/
inductive Err where
  | kaldiErr (msg : String)
  | assertFail (cond : String)
  deriving DecidableEq

/-- Outcome of one expansion call: the ops appended to the plan (in
order) before the call returned or aborted, and the fatal error if the
call aborted. -/
structure ExpandResult where
  ops : List Op
  err : Option Err
  deriving DecidableEq

/-- Ops explicitly pushed from inside the CPU float/double switch of
`PlusEqOp::ExpandCpu` (lines 83-139): only case `0x000103`
(scalar += matrix) pushes an op inside its case body — the reduction of
the matrix `b` into the fresh column-shaped temporary
`Tensor temp({num_rows, 1}, {a.Dtype(), a.Device()})` with
`num_rows = b.Pattern().dims[1]`. -/
def plusEqCpuSwitchPushed (a b : Tensor) (code : Nat) : List Op :=
  if code = 0x000103 then
    [Op.colVectorEqMatrixCpu a.dtype
       (newTensor [b.pattern.dims.getD 1 0, 1] a.dtype a.device) b]
  else []

/-- Assignments made to `new_op` by the CPU float/double switch (lines
83-139), in control-flow order.  A C++ case without `break` falls
through, so a later assignment overwrites an earlier one and the op
pushed after the switch is the last element.  Cases `0x101103` and
`0x001103` (vector += matrix) assign the row-reduction kernel and then,
lacking a `break`, fall through into `default`, which reassigns the
reference op built from the original (unreduced) operands. -/
def plusEqCpuSwitchAssigns (a b a0 b0 : Tensor) (code : Nat) : List Op :=
  if code = 0x000000 then
    [Op.scalarPlusEqScalarCpu a.dtype a b]
  else if code = 0x101101 ∨ code = 0x001001 ∨ code = 0x101001 ∨ code = 0x001101 then
    [Op.stvectorPlusEqStvectorCpu a.dtype a b]
  else if code = 0x000101 ∨ code = 0x000001 then
    [Op.scalarPlusEqStvectorCpu a.dtype a b]
  else if code = 0x101000 ∨ code = 0x001000 then
    [Op.stvectorPlusEqScalarCpu a.dtype a b]
  else if code = 0x000103 then
    [Op.scalarPlusEqStvectorCpu a.dtype a
       (squeezeR (newTensor [b.pattern.dims.getD 1 0, 1] a.dtype a.device) 0)]
  else if code = 0x101103 ∨ code = 0x001103 then
    [Op.stvectorPlusEqMatrix a.dtype,
     Op.plusEqRefCpu a0.dtype a0 b0]
  else
    [Op.plusEqRefCpu a0.dtype a0 b0]

/-- The CPU non-float/double dtype switch (lines 140-147): `case
kInt32Dtype` allocates `new PlusEqRefOp<int32>(a_, b_)` but has no
`break`, so control falls through into `default`, which raises
`KALDI_ERR << "Unexpected dtype"` for every dtype that reaches this
switch.  Returns the ops allocated along the control path (never
appended to the plan) together with the fatal error. -/
def plusEqCpuNonReal (a0 b0 : Tensor) (dtype : Dtype) : List Op × Err :=
  ((if dtype = Dtype.int32 then [Op.plusEqRef Dtype.int32 a0 b0] else []),
   Err.kaldiErr "Unexpected dtype")

/-- CPU body of the merged `PlusEqOp::ExpandCpu` (lines 31-149):
reference mode short-circuits to the single generic reference op built
from the original operands; otherwise float/double dtypes go through the
combined-code switch (the one op the switch selects is pushed by the
`ops->push_back(new_op)` at line 148, after any pushes made inside a
case body), and all other dtypes reach the fatal dtype switch, appending
nothing. -/
def plusEqExpandCpuBody (refMode : Bool) (a0 b0 : Tensor) (aPat bPat : Pattern) :
    ExpandResult :=
  if refMode then
    { ops := [Op.plusEqRef a0.dtype a0 b0], err := none }
  else if (reducedView a0 aPat).dtype = Dtype.float ∨
          (reducedView a0 aPat).dtype = Dtype.double then
    { ops := plusEqCpuSwitchPushed (reducedView a0 aPat) (reducedView b0 bPat)
               (combineCodes aPat.code bPat.code)
             ++ [(plusEqCpuSwitchAssigns (reducedView a0 aPat) (reducedView b0 bPat)
                    a0 b0 (combineCodes aPat.code bPat.code)).getLastD
                   (Op.plusEqRefCpu a0.dtype a0 b0)],
      err := none }
  else
    { ops := [],
      err := some (plusEqCpuNonReal a0 b0 (reducedView a0 aPat).dtype).2 }

/-- Ops pushed from inside the CUDA float/double switch (lines 155-193):
only case `0x000103` pushes an op inside its case body (line 186).  No
`ops->push_back(new_op)` follows this switch — the push at line 148 sits
inside the CPU branch — so the `new_op` assignments made by the other
cases are never appended (see `plusEqCudaSwitchAssigns`). -/
def plusEqCudaSwitchPushed (a b : Tensor) (code : Nat) : List Op :=
  if code = 0x000103 then
    [Op.colVectorEqMatrix a.dtype a.device.deviceType
       (newTensor [b.pattern.dims.getD 1 0, 1] a.dtype a.device) b]
  else []

/-- Assignments made to `new_op` by the CUDA float/double switch (lines
155-193), in control-flow order.  This switch has no `default` case:
for any code not listed, `new_op` is left unassigned.  None of these
assignments is ever pushed to the plan (no `push_back` follows the
switch in the CUDA branch). -/
def plusEqCudaSwitchAssigns (a b : Tensor) (code : Nat) : List Op :=
  if code = 0x101101 ∨ code = 0x001001 ∨ code = 0x101001 ∨ code = 0x001101 then
    [Op.stvectorPlusEqStvectorCuda a.dtype a.device.deviceType a b]
  else if code = 0x000101 ∨ code = 0x000001 then
    [Op.scalarPlusEqStvectorCuda a.dtype a.device.deviceType a b]
  else if code = 0x101000 ∨ code = 0x001000 then
    [Op.stvectorPlusEqScalarCuda a.dtype a.device.deviceType a b]
  else if code = 0x000103 then
    [Op.scalarPlusEqStvector a.dtype a.device.deviceType a
       (squeezeR (newTensor [b.pattern.dims.getD 1 0, 1] a.dtype a.device) 0)]
  else []

/-- CUDA body (lines 150-198): `KALDI_ASSERT(a.DeviceType() == kCuda)`
holds whenever this branch is taken (the only non-CPU device type is
`kCuda`).  Without `HAVE_CUDA` the whole body is
`KALDI_ERR << "You have not compiled for CUDA but are trying to use
GPU."`.  With `HAVE_CUDA`, float/double dtypes run the switch (whose
only appended op is the explicit push inside case `0x000103`), and the
dtype test has no else branch, so other dtypes append nothing and raise
nothing. -/
def plusEqExpandCudaBody (haveCuda : Bool) (a0 b0 : Tensor) (aPat bPat : Pattern) :
    ExpandResult :=
  if haveCuda then
    if (reducedView a0 aPat).dtype = Dtype.float ∨
       (reducedView a0 aPat).dtype = Dtype.double then
      { ops := plusEqCudaSwitchPushed (reducedView a0 aPat) (reducedView b0 bPat)
                 (combineCodes aPat.code bPat.code),
        err := none }
    else
      { ops := [], err := none }
  else
    { ops := [],
      err := some (Err.kaldiErr
        "You have not compiled for CUDA but are trying to use GPU.") }

/-- `PlusEqOp::Expand` (lines 26-29) composed with the merged
`ExpandCpu` body: CPU operands take the CPU body (including the
reference-mode early return), all others take the CUDA body.  `aPat`
and `bPat` are the jointly reduced patterns of `a_` and `b_` as produced
by `ReducePatterns` (external to this file). -/
def plusEqExpand (refMode haveCuda : Bool) (a0 b0 : Tensor) (aPat bPat : Pattern) :
    ExpandResult :=
  if a0.device.deviceType = DeviceType.cpu then
    plusEqExpandCpuBody refMode a0 b0 aPat bPat
  else
    plusEqExpandCudaBody haveCuda a0 b0 aPat bPat

/-- `AssignOp::Expand` (lines 223-339).  In source order: the
cross-device-with-type-conversion check, the cross-device check, the
CPU reference-mode branch, `KALDI_ASSERT(Compatible(a_, b_))` (dtype and
device must match), the reduced views, and the combined-code switch.
In the switch, case `0x000103` pushes its first op inside the case body,
assigns the second to `new_op`, and then — lacking a `break` — falls
through into `default`, which raises `KALDI_ERR << "Unhandled code"`;
so does every code the switch does not list. -/
def assignExpand (refMode : Bool) (a0 b0 : Tensor) (aPat bPat : Pattern) :
    ExpandResult :=
  if a0.dtype ≠ b0.dtype ∧ a0.device ≠ b0.device then
    { ops := [],
      err := some (Err.kaldiErr
        "Cross-device copying combined with type convesion not supported yet.") }
  else if a0.device ≠ b0.device then
    { ops := [], err := some (Err.kaldiErr "Cross-device copying not supported yet.") }
  else if refMode ∧ a0.device.deviceType = DeviceType.cpu then
    { ops := [Op.assignRef a0.dtype b0.dtype a0 b0], err := none }
  else if ¬ (a0.dtype = b0.dtype ∧ a0.device = b0.device) then
    { ops := [], err := some (Err.assertFail "Compatible(a_, b_)") }
  else
    assignSwitch (reducedView a0 aPat) (reducedView b0 bPat)
      (combineCodes aPat.code bPat.code)
where
  /-- The combined-code switch of `AssignOp::Expand` (lines 289-338),
  followed by the `ops->push_back(new_op)` at line 338 when the switch
  completes without `KALDI_ERR`. -/
  assignSwitch (a b : Tensor) (code : Nat) : ExpandResult :=
    if code = 0x000000 then
      { ops := [Op.scalarPlusEqScalar a.dtype a.device.deviceType a b], err := none }
    else if code = 0x101101 ∨ code = 0x001001 ∨ code = 0x101001 ∨ code = 0x001101 then
      { ops := [Op.stvectorPlusEqStvector a.dtype a.device.deviceType a b], err := none }
    else if code = 0x000101 ∨ code = 0x000001 then
      { ops := [Op.scalarPlusEqStvector a.dtype a.device.deviceType a b], err := none }
    else if code = 0x101000 ∨ code = 0x001000 then
      { ops := [Op.stvectorPlusEqScalar a.dtype a.device.deviceType a b], err := none }
    else if code = 0x000103 then
      { ops := [Op.colVectorEqMatrix a.dtype a.device.deviceType
                  (newTensor [b.pattern.dims.getD 1 0, 1] a.dtype a.device) b],
        err := some (Err.kaldiErr "Unhandled code") }
    else
      { ops := [], err := some (Err.kaldiErr "Unhandled code") }

/-- What a call to `AddProduct` resolves to once the (at most one)
canonicalization swap is done: one of the six specialized kernel
invocations, a fatal device/dtype incompatibility, or the generic path,
which takes `SubTensor` copies of the three operands, calls
`PadAxes(&(a.pattern), &(b.pattern), &(c.pattern))` and
`CompressPatterns({&a_temp, &b_temp, &c_temp})`, and then simply returns
— the file contains no kernel invocation after this point.
`genericReturn` records the copies as passed to `CompressPatterns`
(their patterns are the unpadded originals, since the copies are taken
before `PadAxes` runs and `PadAxes` is applied to the inputs
themselves); `CompressPatterns` is external to this file and nothing is
done with the copies afterwards. -/
inductive ProdOutcome where
  | scalar3 (a b c : Tensor)
  | vecScalarVec (a b c : Tensor)
  | vec3 (a b c : Tensor)
  | matVecVec (a b c : Tensor)
  | tmatVecVec (a b c : Tensor)
  | vec2Mat (a b c : Tensor)
  | genericReturn (aTemp bTemp cTemp : Tensor)
  | deviceDtypeError
  deriving DecidableEq

/-- Result of `AddProduct`: the number of canonicalization swaps
performed, the outcome, and the patterns of the caller's three operand
tensors when the call returns (the generic path passes the addresses of
the inputs' own patterns to `PadAxes`, so there they come back padded). -/
structure ProdResult where
  swaps : Nat
  outcome : ProdOutcome
  aPatternAfter : Pattern
  bPatternAfter : Pattern
  cPatternAfter : Pattern
  deriving DecidableEq

/-- Modelled from the spec: `CheckDeviceAndDtype(a, b, *c)` — "device
and element-type compatibility across all three operands is checked
(fatal if violated)" (spec section 4.4). -/
def checkDeviceAndDtype (a b c : Tensor) : Bool :=
  a.device = b.device ∧ b.device = c.device ∧ a.dtype = b.dtype ∧ b.dtype = c.dtype

/-- Modelled from the spec: `PadAxes` pads the operand patterns to
matching rank ("pads operand patterns to matching rank", spec section
4.4) by appending degenerate (dim 1) raxes up to rank `r`; the stored
code member is not recomputed here (its recomputation is external and no
theorem below inspects it). -/
def padTo (r : Nat) (p : Pattern) : Pattern :=
  { p with dims := p.dims ++ List.replicate (r - p.dims.length) 1 }

/-- The non-recursive body of `AddProduct` (lines 353-414), reached once
`a.pattern.code ≥ b.pattern.code`: device/dtype check, the six-case
ternary-code switch, and otherwise the generic path (copies, `PadAxes`
on the inputs' patterns, `CompressPatterns` on the copies, return). -/
def addProductBody (a b c : Tensor) : ProdResult :=
  if ¬ checkDeviceAndDtype a b c then
    { swaps := 0, outcome := ProdOutcome.deviceDtypeError,
      aPatternAfter := a.pattern, bPatternAfter := b.pattern,
      cPatternAfter := c.pattern }
  else
    addProductSwitch a b c (combineCodes3 a.pattern.code b.pattern.code c.pattern.code)
where
  addProductSwitch (a b c : Tensor) (code : Nat) : ProdResult :=
    if code = 0x000000000 then
      { swaps := 0, outcome := ProdOutcome.scalar3 a b c,
        aPatternAfter := a.pattern, bPatternAfter := b.pattern,
        cPatternAfter := c.pattern }
    else if code = 0x101000101 then
      { swaps := 0, outcome := ProdOutcome.vecScalarVec a b c,
        aPatternAfter := a.pattern, bPatternAfter := b.pattern,
        cPatternAfter := c.pattern }
    else if code = 0x101101101 then
      { swaps := 0, outcome := ProdOutcome.vec3 a b c,
        aPatternAfter := a.pattern, bPatternAfter := b.pattern,
        cPatternAfter := c.pattern }
    else if code = 0x103101202 then
      { swaps := 0, outcome := ProdOutcome.matVecVec a b c,
        aPatternAfter := a.pattern, bPatternAfter := b.pattern,
        cPatternAfter := c.pattern }
    else if code = 0x203101202 then
      { swaps := 0, outcome := ProdOutcome.tmatVecVec a b c,
        aPatternAfter := a.pattern, bPatternAfter := b.pattern,
        cPatternAfter := c.pattern }
    else if code = 0x202101103 then
      { swaps := 0, outcome := ProdOutcome.vec2Mat a b c,
        aPatternAfter := a.pattern, bPatternAfter := b.pattern,
        cPatternAfter := c.pattern }
    else
      { swaps := 0,
        outcome := ProdOutcome.genericReturn a b c,
        aPatternAfter :=
          padTo (max a.pattern.dims.length
                   (max b.pattern.dims.length c.pattern.dims.length)) a.pattern,
        bPatternAfter :=
          padTo (max a.pattern.dims.length
                   (max b.pattern.dims.length c.pattern.dims.length)) b.pattern,
        cPatternAfter :=
          padTo (max a.pattern.dims.length
                   (max b.pattern.dims.length c.pattern.dims.length)) c.pattern }

/-- Fuel-indexed `AddProduct` (lines 343-414): when `a`'s code is
numerically less than `b`'s code the call recurses once with `a` and `b`
swapped and returns; the `swaps` count and the after-patterns of the
swapped roles are mapped back to this call's operands.  `none` means the
fuel bound was exhausted before a terminal branch was reached. -/
def addProductFuel : Nat → Tensor → Tensor → Tensor → Option ProdResult
  | 0, _, _, _ => none
  | fuel + 1, a, b, c =>
      if a.pattern.code < b.pattern.code then
        (addProductFuel fuel b a c).map (fun r =>
          { r with swaps := r.swaps + 1,
                   aPatternAfter := r.bPatternAfter,
                   bPatternAfter := r.aPatternAfter })
      else
        some (addProductBody a b c)

/-- `AddProduct` with fuel 2: enough for the single canonicalization
swap the source performs. -/
def addProduct (a b c : Tensor) : Option ProdResult := addProductFuel 2 a b c

/-! ### Basic lemmas about the reduced views -/

theorem reducedView_dtype (t : Tensor) (p : Pattern) :
    (reducedView t p).dtype = t.dtype := by
  unfold reducedView withPattern
  split <;> rfl

theorem reducedView_device (t : Tensor) (p : Pattern) :
    (reducedView t p).device = t.device := by
  unfold reducedView withPattern
  split <;> rfl

theorem reducedView_pattern (t : Tensor) (p : Pattern) :
    (reducedView t p).pattern = p := by
  unfold reducedView withPattern
  split
  · rfl
  · next h => exact (not_not.mp h).symm

theorem addProductBody_swaps (a b c : Tensor) :
    (addProductBody a b c).swaps = 0 := by
  unfold addProductBody addProductBody.addProductSwitch
  repeat' split <;> try rfl

/-! ### Concrete fixtures used by counterexamples and witnesses -/

/-- A CPU device. -/
def cpuDevice : Device := { deviceType := DeviceType.cpu, deviceId := 0 }

/-- An accelerator device. -/
def cudaDevice : Device := { deviceType := DeviceType.cuda, deviceId := 0 }

/-- Pattern of a scalar, `()`: one degenerate axis, code 0x000. -/
def scalarPat : Pattern := { dims := [1], code := 0x000 }

/-- Pattern of a contiguous 4-element vector, `(X)`: code 0x101. -/
def vec4Pat : Pattern := { dims := [4], code := 0x101 }

/-- Pattern of a 3-row, 4-column row-major matrix, `(xX)`: code 0x103;
`dims[1]` (the raxis-1 dim) is the number of rows, 3. -/
def mat43Pat : Pattern := { dims := [4, 3], code := 0x103 }

def aScalarInt : Tensor := { dtype := Dtype.int32, device := cpuDevice, pattern := scalarPat }

def bMatInt : Tensor := { dtype := Dtype.int32, device := cpuDevice, pattern := mat43Pat }

def aVecInt : Tensor := { dtype := Dtype.int32, device := cpuDevice, pattern := vec4Pat }

def bVecInt : Tensor := { dtype := Dtype.int32, device := cpuDevice, pattern := vec4Pat }

def aScalarCpuF : Tensor := { dtype := Dtype.float, device := cpuDevice, pattern := scalarPat }

def aVecCpuF : Tensor := { dtype := Dtype.float, device := cpuDevice, pattern := vec4Pat }

def aMatCpuF : Tensor := { dtype := Dtype.float, device := cpuDevice, pattern := mat43Pat }

def bMatCpuF : Tensor := { dtype := Dtype.float, device := cpuDevice, pattern := mat43Pat }

def aMatCudaF : Tensor := { dtype := Dtype.float, device := cudaDevice, pattern := mat43Pat }

def bMatCudaF : Tensor := { dtype := Dtype.float, device := cudaDevice, pattern := mat43Pat }

def cScalarCpuF : Tensor := { dtype := Dtype.float, device := cpuDevice, pattern := scalarPat }

def bVecCpuF : Tensor := { dtype := Dtype.float, device := cpuDevice, pattern := vec4Pat }

def cMatCpuF : Tensor := { dtype := Dtype.float, device := cpuDevice, pattern := mat43Pat }

/-! ### Claim theorems -/

/-- C2: for every pair of operands passed to `AddProduct`, if `a`'s
pattern code is numerically less than `b`'s, the operands are swapped
and `AddProduct` recurses exactly once, and the recursive call reaches a
terminal, non-recursing branch (fuel 2 always suffices, and any larger
fuel gives the same result); if `a`'s code is greater than or equal to
`b`'s, no swap occurs.  Hence `AddProduct` always terminates with at
most one swap. -/
theorem addProduct_canonicalization_single_swap (a b c : Tensor) :
    ∃ r : ProdResult, addProduct a b c = some r ∧
      r.swaps = (if a.pattern.code < b.pattern.code then 1 else 0) ∧
      r.swaps ≤ 1 ∧
      (∀ n : Nat, addProductFuel (n + 2) a b c = addProduct a b c) := by
  by_cases h : a.pattern.code < b.pattern.code
  · have h2 : ¬ b.pattern.code < a.pattern.code := Nat.lt_asymm h
    refine ⟨{ addProductBody b a c with
              swaps := (addProductBody b a c).swaps + 1,
              aPatternAfter := (addProductBody b a c).bPatternAfter,
              bPatternAfter := (addProductBody b a c).aPatternAfter }, ?_, ?_, ?_, ?_⟩
    · simp [addProduct, addProductFuel, h, h2]
    · simp [addProductBody_swaps, h]
    · simp [addProductBody_swaps]
    · intro n
      simp [addProduct, addProductFuel, h, h2]
  · refine ⟨addProductBody a b c, ?_, ?_, ?_, ?_⟩
    · simp [addProduct, addProductFuel, h]
    · simp [addProductBody_swaps, h]
    · simp [addProductBody_swaps]
    · intro n
      simp [addProduct, addProductFuel, h]

/-- C1 counterexample: an accumulate request on CPU, not in reference
mode, whose reduced combined code is 0x000103 (scalar += matrix) but
whose element type is int32 appends no ops at all and aborts with the
fatal "Unexpected dtype" error — not the two ops the claim promises for
every such request. -/
theorem plusEq_cpu_scalar_matrix_int32_no_ops :
    plusEqExpand false false aScalarInt bMatInt scalarPat mat43Pat =
      { ops := [], err := some (Err.kaldiErr "Unexpected dtype") } := by
  decide

/-- C1 (amended: restricted to float/double element types, the only ones
that reach the fast-path switch): for every accumulate request on CPU,
not in reference mode, with float or double element type, whose reduced
combined code is 0x000103 (scalar += matrix), expansion appends exactly
two ops in this order: first the reduction of the matrix into a freshly
allocated column-shaped temporary of shape (num_rows, 1) — `num_rows`
being `dims[1]` of the matrix's reduced pattern — with the target's
element type and device, then the reduction of the raxis-0-squeezed view
of that temporary into the scalar target; and no other ops. -/
theorem plusEq_cpu_scalar_matrix_two_ops
    (haveCuda : Bool) (a0 b0 : Tensor) (aPat bPat : Pattern)
    (hdev : a0.device.deviceType = DeviceType.cpu)
    (hdt : a0.dtype = Dtype.float ∨ a0.dtype = Dtype.double)
    (hca : aPat.code = 0x000) (hcb : bPat.code = 0x103) :
    plusEqExpand false haveCuda a0 b0 aPat bPat =
      { ops := [Op.colVectorEqMatrixCpu a0.dtype
                  (newTensor [bPat.dims.getD 1 0, 1] a0.dtype a0.device)
                  (reducedView b0 bPat),
                Op.scalarPlusEqStvectorCpu a0.dtype (reducedView a0 aPat)
                  (squeezeR (newTensor [bPat.dims.getD 1 0, 1] a0.dtype a0.device) 0)],
        err := none } := by
  rcases hdt with h | h <;>
    simp [plusEqExpand, plusEqExpandCpuBody, plusEqCpuSwitchPushed,
          plusEqCpuSwitchAssigns, combineCodes, hdev, hca, hcb, h,
          reducedView_dtype, reducedView_device, reducedView_pattern,
          List.getLastD]

/-- C1 witness: the amended theorem applied to a concrete float
scalar += matrix request on CPU. -/
theorem plusEq_cpu_scalar_matrix_two_ops_witness :
    plusEqExpand false false aScalarCpuF bMatCpuF scalarPat mat43Pat =
      { ops := [Op.colVectorEqMatrixCpu aScalarCpuF.dtype
                  (newTensor [mat43Pat.dims.getD 1 0, 1] aScalarCpuF.dtype aScalarCpuF.device)
                  (reducedView bMatCpuF mat43Pat),
                Op.scalarPlusEqStvectorCpu aScalarCpuF.dtype (reducedView aScalarCpuF scalarPat)
                  (squeezeR (newTensor [mat43Pat.dims.getD 1 0, 1] aScalarCpuF.dtype
                               aScalarCpuF.device) 0)],
        err := none } :=
  plusEq_cpu_scalar_matrix_two_ops false aScalarCpuF bMatCpuF scalarPat mat43Pat
    rfl (Or.inl rfl) rfl rfl

/-- C3 (code bug): evaluated at a float matrix += matrix request
(reduced codes 0x103, 0x103 — a combined code matching none of the
fast-path cases), the CPU driver appends the generic reference op as the
claim says, but the accelerator driver (with the CUDA backend compiled
in) appends nothing and raises nothing: its switch has no `default`
case and no `push_back` follows it, so the plan comes back empty. -/
theorem plusEq_unmatched_code_cuda_empty_plan :
    plusEqExpand false true aMatCudaF bMatCudaF mat43Pat mat43Pat =
      { ops := [], err := none } ∧
    plusEqExpand false true aMatCpuF bMatCpuF mat43Pat mat43Pat =
      { ops := [Op.plusEqRefCpu Dtype.float aMatCpuF bMatCpuF], err := none } := by
  decide

/-- C4 (code bug): at a float vector += matrix request on CPU (reduced
codes 0x101, 0x103, combined 0x101103), the case body assigns the
row-reduction kernel to `new_op` but — lacking a `break` — falls through
into `default`, which overwrites it with the generic reference op; the
single op appended to the plan is therefore the reference op, not the
row-reduction kernel the claim promises. -/
theorem plusEq_cpu_vector_matrix_fallthrough :
    plusEqCpuSwitchAssigns aVecCpuF bMatCpuF aVecCpuF bMatCpuF 0x101103 =
      [Op.stvectorPlusEqMatrix Dtype.float,
       Op.plusEqRefCpu Dtype.float aVecCpuF bMatCpuF] ∧
    plusEqExpand false false aVecCpuF bMatCpuF vec4Pat mat43Pat =
      { ops := [Op.plusEqRefCpu Dtype.float aVecCpuF bMatCpuF], err := none } := by
  decide

/-- C5: for every assign request whose operands reside on different
devices, `AssignOp::Expand` fails fatally — with the
cross-device-plus-type-conversion message when the element types also
differ, with the plain cross-device message otherwise — and the output
op list is unchanged: no op is constructed or appended. -/
theorem assign_cross_device_fatal (refMode : Bool) (a0 b0 : Tensor)
    (aPat bPat : Pattern) (hdev : a0.device ≠ b0.device) :
    assignExpand refMode a0 b0 aPat bPat =
      { ops := [],
        err := some (Err.kaldiErr
          (if a0.dtype ≠ b0.dtype then
             "Cross-device copying combined with type convesion not supported yet."
           else
             "Cross-device copying not supported yet.")) } := by
  by_cases hdt : a0.dtype = b0.dtype
  · simp [assignExpand, hdev, hdt]
  · simp [assignExpand, hdev, hdt]

/-- C5 witness: a CPU-resident and an accelerator-resident float tensor:
the assign expansion fails with the cross-device error and an empty op
list. -/
theorem assign_cross_device_fatal_witness :
    assignExpand false aMatCpuF bMatCudaF mat43Pat mat43Pat =
      { ops := [],
        err := some (Err.kaldiErr
          (if aMatCpuF.dtype ≠ bMatCudaF.dtype then
             "Cross-device copying combined with type convesion not supported yet."
           else
             "Cross-device copying not supported yet.")) } :=
  assign_cross_device_fatal false aMatCpuF bMatCudaF mat43Pat mat43Pat (by decide)

/-- C6: with reference mode enabled, a CPU accumulate expansion bypasses
pattern reduction and fast-path dispatch entirely and appends exactly
one op — the generic reference op built from the original operands —
whatever the reduced patterns are; and reference mode never affects the
accelerator path: for non-CPU operands both the accumulate and the
assign expansions give identical results with reference mode on and
off. -/
theorem referenceMode_cpu_bypass_only (haveCuda : Bool) (a0 b0 : Tensor)
    (aPat bPat : Pattern) :
    (a0.device.deviceType = DeviceType.cpu →
       plusEqExpand true haveCuda a0 b0 aPat bPat =
         { ops := [Op.plusEqRef a0.dtype a0 b0], err := none }) ∧
    (a0.device.deviceType ≠ DeviceType.cpu →
       plusEqExpand true haveCuda a0 b0 aPat bPat =
         plusEqExpand false haveCuda a0 b0 aPat bPat) ∧
    (a0.device.deviceType ≠ DeviceType.cpu →
       assignExpand true a0 b0 aPat bPat = assignExpand false a0 b0 aPat bPat) := by
  refine ⟨?_, ?_, ?_⟩
  · intro h
    simp [plusEqExpand, plusEqExpandCpuBody, h]
  · intro h
    simp [plusEqExpand, h]
  · intro h
    simp [assignExpand, h]

/-- C6 witness: the reference-mode branch applied to a concrete CPU
float matrix += matrix request. -/
theorem referenceMode_cpu_bypass_only_witness :
    plusEqExpand true true aMatCpuF bMatCpuF mat43Pat mat43Pat =
      { ops := [Op.plusEqRef aMatCpuF.dtype aMatCpuF bMatCpuF], err := none } :=
  (referenceMode_cpu_bypass_only true aMatCpuF bMatCpuF mat43Pat mat43Pat).1 rfl

/-- C7 (code bug): `AddProduct`'s generic path does not leave its input
tensors unmodified: `PadAxes` receives the addresses of the inputs' own
patterns (not those of the local `SubTensor` copies taken for this
purpose), so at a matrix-matrix-scalar request (codes 0x103, 0x103,
0x000 — no specialized case) the scalar operand `c` comes back with its
pattern padded from rank 1 to rank 2, different from the pattern it was
passed with. -/
theorem addProduct_generic_pads_input_pattern :
    addProduct aMatCpuF bMatCpuF cScalarCpuF =
      some { swaps := 0,
             outcome := ProdOutcome.genericReturn aMatCpuF bMatCpuF cScalarCpuF,
             aPatternAfter := mat43Pat,
             bPatternAfter := mat43Pat,
             cPatternAfter := { dims := [1, 1], code := 0x000 } } ∧
    Pattern.mk [1, 1] 0x000 ≠ cScalarCpuF.pattern := by
  decide

/-- C8 (code bug): at a ternary combined code matching none of the six
specialized cases (here 0x103101103: matrix, vector, matrix), the
generic path takes copies of the operands, pads the operands' own
patterns to matching rank, hands the (unpadded) copies to
`CompressPatterns`, and then simply returns: its outcome is
`genericReturn` — the file contains no reference ternary kernel and
invokes no kernel whatsoever on this path, contrary to the claim. -/
theorem addProduct_generic_invokes_no_kernel :
    addProduct aMatCpuF bVecCpuF cMatCpuF =
      some { swaps := 0,
             outcome := ProdOutcome.genericReturn aMatCpuF bVecCpuF cMatCpuF,
             aPatternAfter := mat43Pat,
             bPatternAfter := { dims := [4, 1], code := 0x101 },
             cPatternAfter := mat43Pat } := by
  decide

/-- C9: for every accumulate request whose target resides on the
accelerator while the CUDA backend was not compiled in, expansion fails
fatally with the configuration error and appends no op — it never
substitutes a CPU kernel; this holds in and out of reference mode. -/
theorem plusEq_cuda_without_backend_fatal (refMode : Bool) (a0 b0 : Tensor)
    (aPat bPat : Pattern) (hdev : a0.device.deviceType = DeviceType.cuda) :
    plusEqExpand refMode false a0 b0 aPat bPat =
      { ops := [],
        err := some (Err.kaldiErr
          "You have not compiled for CUDA but are trying to use GPU.") } := by
  simp [plusEqExpand, plusEqExpandCudaBody, hdev]

/-- C9 witness: a concrete float matrix += matrix request on the
accelerator with the backend absent. -/
theorem plusEq_cuda_without_backend_fatal_witness :
    plusEqExpand true false aMatCudaF bMatCudaF mat43Pat mat43Pat =
      { ops := [],
        err := some (Err.kaldiErr
          "You have not compiled for CUDA but are trying to use GPU.") } :=
  plusEq_cuda_without_backend_fatal true aMatCudaF bMatCudaF mat43Pat mat43Pat rfl

/-- C10: for every accumulate request on CPU, not in reference mode,
whose element type is neither float nor double, expansion appends
nothing and fails fatally with the "Unexpected dtype" error instead of
falling back to any generic kernel; and int32 is the only non-floating
element type for which an op is constructed on that path (the
`new PlusEqRefOp<int32>` of the break-less `kInt32Dtype` case, which is
allocated and then abandoned when control falls through into the fatal
`default`). -/
theorem plusEq_cpu_nonfloat_dtype_fatal (haveCuda : Bool) (a0 b0 : Tensor)
    (aPat bPat : Pattern) (hdev : a0.device.deviceType = DeviceType.cpu)
    (hf : a0.dtype ≠ Dtype.float) (hd : a0.dtype ≠ Dtype.double) :
    plusEqExpand false haveCuda a0 b0 aPat bPat =
      { ops := [], err := some (Err.kaldiErr "Unexpected dtype") } ∧
    ((plusEqCpuNonReal a0 b0 a0.dtype).1 ≠ [] ↔ a0.dtype = Dtype.int32) := by
  constructor
  · simp [plusEqExpand, plusEqExpandCpuBody, plusEqCpuNonReal, hdev,
          reducedView_dtype, hf, hd]
  · by_cases h : a0.dtype = Dtype.int32 <;> simp [plusEqCpuNonReal, h]

/-- C10 witness: a concrete int32 vector += vector request on CPU:
expansion aborts with "Unexpected dtype", and the op-construction test
for int32 is positive. -/
theorem plusEq_cpu_nonfloat_dtype_fatal_witness :
    (plusEqExpand false false aVecInt bVecInt vec4Pat vec4Pat =
       { ops := [], err := some (Err.kaldiErr "Unexpected dtype") } ∧
     ((plusEqCpuNonReal aVecInt bVecInt aVecInt.dtype).1 ≠ [] ↔
        aVecInt.dtype = Dtype.int32)) :=
  plusEq_cpu_nonfloat_dtype_fatal false aVecInt bVecInt vec4Pat vec4Pat
    rfl (by decide) (by decide)

end LinearOps
